import Mathlib

/-!
Verification of the agora supply-chain simulator core: a shallow embedding
of the message bus, the order model, the scheduler, and the warehouse,
factory and truck agents, with theorems settling the specified properties.

Conventions of the embedding:
- Python dictionaries that preserve insertion order are modelled as
  association lists (List (Key × Value)) with lookup by key; the modelled
  dictionaries never hold duplicate keys, so first-occurrence replace and
  erase coincide with Python dict assignment and del.
- Python lists are Lean lists; list.pop(0) drops the head.
- Machine floats appear only in wall-clock timestamps and movement
  distances; timestamps are dropped (no modelled control flow reads them)
  and distances are modelled over the rationals.
- Methods that mutate an object become functions from the state to a new
  state; messages sent via the bus during a method are collected in the
  returned value (or an outbox field) in send order.
-/

namespace Agora

/-! ## Payload and message model (models/message.py) -/

/-- Payload values of a message data dictionary: the repository stores
strings and integers in message payloads. -/
inductive Val where
  | s (v : String)
  | n (v : Nat)
deriving DecidableEq, Repr

/-- Message payload: the key/value data dictionary. -/
abbrev Payload := List (String × Val)

/-- Lookup of a payload key, as data.get(key) which yields None when the
key is absent. -/
def Payload.get (d : Payload) (k : String) : Option Val :=
  (d.find? (fun kv => kv.1 = k)).map (·.2)

/-- data.get(key, 0) for a numeric field: absent or non-numeric yields 0.
The producing agents only ever store numbers under numeric keys. -/
def Payload.getNat (d : Payload) (k : String) : Nat :=
  match Payload.get d k with
  | some (Val.n n) => n
  | _ => 0

/-- Truthiness of a string payload field, as Python bool(value): a missing
key and an empty string are falsy, any other string is truthy. -/
def Payload.getTruthyStr (d : Payload) (k : String) : Option String :=
  match Payload.get d k with
  | some (Val.s v) => if v = "" then none else some v
  | _ => none

/-- models/message.py Message: sender, recipient, message_type, data.
The wall-clock timestamp field is omitted: no modelled code reads it. -/
structure Message where
  sender : String
  recipient : String
  message_type : String
  data : Payload
deriving DecidableEq, Repr

/-! ## Dictionary operations shared by the agent models -/

/-- Python dict lookup d.get(k): value of the first entry with key k. -/
def dictGet {α : Type} : List (String × α) → String → Option α
  | [], _ => none
  | kv :: tl, k => if kv.1 = k then some kv.2 else dictGet tl k

/-- Python d.get(k, 0) for integer-valued dictionaries. -/
def dictGetD (d : List (String × Nat)) (k : String) : Nat :=
  (dictGet d k).getD 0

/-- Python dict assignment d[k] = v: replace the value in place when the
key exists, append a new entry otherwise. -/
def dictSet {α : Type} : List (String × α) → String → α → List (String × α)
  | [], k, v => [(k, v)]
  | kv :: tl, k, v => if kv.1 = k then (k, v) :: tl else kv :: dictSet tl k v

/-- Python del d[k]: remove the entry with key k (keys are unique). -/
def dictErase {α : Type} : List (String × α) → String → List (String × α)
  | [], _ => []
  | kv :: tl, k => if kv.1 = k then tl else kv :: dictErase tl k

/-- The keys of an association-list dictionary, in order. -/
def dictKeys {α : Type} (d : List (String × α)) : List String :=
  d.map (·.1)

/-! ## Message bus (agents/message_bus.py) -/

namespace MessageBus

/-- agents/message_bus.py: self._max_queue_size = 100. -/
def maxQueueSize : Nat := 100

/-- The body of MessageBus.publish acting on the queue of the recipient:
if the queue has reached max size, pop(0) drops the oldest message, then
the new message is appended. -/
def enqueue (q : List Message) (m : Message) : List Message :=
  if maxQueueSize ≤ q.length then q.drop 1 ++ [m] else q ++ [m]

/-- The bus agent queues: defaultdict(list), one FIFO queue per agent id. -/
abbrev Bus := String → List Message

/-- An empty bus: every queue empty, as defaultdict(list) yields. -/
def emptyBus : Bus := fun _ => []

/-- MessageBus.publish: routes the message to the queue of
message.recipient and enqueues it there with drop-oldest overflow. -/
def publish (bus : Bus) (m : Message) : Bus :=
  fun r => if r = m.recipient then enqueue (bus m.recipient) m else bus r

/-- MessageBus.deliver_messages: returns a copy of the queue of the agent
and clears it (read-and-clear drain). -/
def deliver_messages (bus : Bus) (agent_id : String) :
    List Message × Bus :=
  (bus agent_id, fun r => if r = agent_id then [] else bus r)

end MessageBus

/-! ## Order model (models/order.py) -/

/-- The five valid order statuses of models/order.py. -/
inductive OrderStatus where
  | pending
  | processing
  | shipped
  | delivered
  | cancelled
deriving DecidableEq, Repr

/-- models/order.py Order. The constructor validates nonempty ids and a
positive quantity and sets status pending; delivery_location is the
attribute the warehouse attaches to store orders. -/
structure Order where
  order_id : String
  product_id : String
  quantity : Nat
  requester : String
  status : OrderStatus := OrderStatus.pending
  delivery_location : String := ""
deriving DecidableEq, Repr

namespace Order

/-- Order.update_status: the code checks only that new_status is one of
the five valid names (which the OrderStatus type enforces) and then
assigns it; no transition restriction is applied. -/
def update_status (o : Order) (new_status : OrderStatus) : Order :=
  { o with status := new_status }

end Order

/-! ## Factory agent (agents/factory_agent.py) -/

namespace Factory

/-- One entry of self.active_production: the order with its start and
completion time steps. -/
structure ActiveJob where
  order : Order
  start_time : Nat
  completion_time : Nat
deriving DecidableEq, Repr

/-- The FactoryAgent fields that drive production scheduling. The outbox
collects the messages the factory sends, in send order. -/
structure FactoryState where
  agent_id : String
  production_capacity : Nat
  production_time : Nat
  finished_goods_inventory : List (String × Nat)
  production_queue : List Order
  active_production : List (String × ActiveJob)
  current_time_step : Nat
  orders_received : Nat
  orders_completed : Nat
  total_production_time : Nat
  outbox : List Message
deriving DecidableEq, Repr

/-- FactoryAgent._notify_production_complete: send PRODUCTION_COMPLETE to
the requester of the order and mark the order delivered. Returns the
state and the updated order (the Python code mutates the order object). -/
def notify_production_complete (st : FactoryState) (o : Order) :
    FactoryState × Order :=
  ({ st with outbox := st.outbox ++
      [{ sender := st.agent_id, recipient := o.requester,
         message_type := "PRODUCTION_COMPLETE",
         data := [("order_id", Val.s o.order_id),
                  ("product_id", Val.s o.product_id),
                  ("quantity", Val.n o.quantity)] }] },
   o.update_status OrderStatus.delivered)

/-- The body of the completion loop of
FactoryAgent._check_production_completion for one completed order id:
credit finished goods, notify the requester, drop the job and update the
completion counters. -/
def retireJob (st : FactoryState) (e : String × ActiveJob) : FactoryState :=
  let o := e.2.order
  let credited := { st with
    finished_goods_inventory := dictSet st.finished_goods_inventory
      o.product_id (dictGetD st.finished_goods_inventory o.product_id +
        o.quantity) }
  let notified := (notify_production_complete credited o).1
  { notified with
    active_production := dictErase notified.active_production e.1,
    orders_completed := notified.orders_completed + 1,
    total_production_time := notified.total_production_time +
      (e.2.completion_time - e.2.start_time) }

/-- FactoryAgent._check_production_completion: collect every active job
whose completion time has been reached and retire each in turn. -/
def check_production_completion (st : FactoryState) : FactoryState :=
  let completed := st.active_production.filter
    (fun e => e.2.completion_time ≤ st.current_time_step)
  completed.foldl retireJob st

/-- The while loop of FactoryAgent._start_new_production, recursing on the
available capacity: pop the head of the FIFO queue and start it with
completion time fixed at the current time step plus the lead time; the
started order object is set to processing. -/
def startLoop (st : FactoryState) : Nat → FactoryState
  | 0 => st
  | cap + 1 =>
      match st.production_queue with
      | [] => st
      | o :: rest =>
          startLoop
            { st with
              production_queue := rest,
              active_production := dictSet st.active_production o.order_id
                { order := o.update_status OrderStatus.processing,
                  start_time := st.current_time_step,
                  completion_time :=
                    st.current_time_step + st.production_time } }
            cap

/-- FactoryAgent._start_new_production: start queued orders while spare
capacity exists. -/
def start_new_production (st : FactoryState) : FactoryState :=
  startLoop st (st.production_capacity - st.active_production.length)

/-- FactoryAgent.step with an empty mailbox (the C7 scenario queues the
orders beforehand): advance the time step counter, retire completed
production, then start new production. -/
def factoryStep (st : FactoryState) : FactoryState :=
  start_new_production (check_production_completion
    { st with current_time_step := st.current_time_step + 1 })

/-- Iterate FactoryAgent.step. -/
def factoryRun (st : FactoryState) : Nat → FactoryState
  | 0 => st
  | n + 1 => factoryRun (factoryStep st) n

/-- A factory as configured in Scenario C: concurrent capacity 2, lead
time 3 ticks, three orders queued at tick 0, no finished goods. -/
def scenOrder (i : Nat) : Order :=
  { order_id := "o" ++ toString i, product_id := "p1", quantity := 10,
    requester := "warehouse_1" }

def scenCState : FactoryState :=
  { agent_id := "factory_1", production_capacity := 2, production_time := 3,
    finished_goods_inventory := [], production_queue :=
      [scenOrder 1, scenOrder 2, scenOrder 3],
    active_production := [], current_time_step := 0, orders_received := 3,
    orders_completed := 0, total_production_time := 0, outbox := [] }

end Factory

/-! ## Scheduler (simulation/simulation_manager.py), fault handling -/

namespace Sched

/-- An agent as the scheduler sees it for fault isolation: its active
flag, whether its per-tick advance raises, and how many advances it has
completed. -/
structure SAgent where
  agent_id : String
  active : Bool
  step_ok : Bool
  steps_taken : Nat
deriving DecidableEq, Repr

/-- BaseAgent.deactivate: mark inactive (the bus unsubscription is not
modelled here; it only clears the mailbox). -/
def deactivate (a : SAgent) : SAgent :=
  { a with active := false }

/-- The per-agent effect of the advance loop of SimulationManager.step:
an inactive agent is skipped; an active agent whose step raises is
deactivated; otherwise the advance completes. Each loop iteration touches
only that agent, so the sequential loop is the pointwise map. -/
def advanceAgent (a : SAgent) : SAgent :=
  if a.active then
    if a.step_ok then { a with steps_taken := a.steps_taken + 1 }
    else deactivate a
  else a

/-- SimulationManager state restricted to what step reads and writes. -/
structure SimState where
  agents : List SAgent
  current_step : Nat
  is_running : Bool
  is_paused : Bool
deriving DecidableEq, Repr

/-- SimulationManager.stop_simulation: stop and deactivate every agent
(clearing the bus queues is outside this projection). -/
def stop_simulation (st : SimState) : SimState :=
  { st with
    is_running := false, is_paused := false,
    agents := st.agents.map deactivate }

/-- SimulationManager.step: a no-op returning False when not running or
paused; otherwise advance every active agent (faults deactivate just that
agent), count the agents whose advance completed, increment the step
counter, and stop the whole simulation (returning False) exactly when
that count is zero. Message processing (phase 1) never deactivates and is
modelled separately. -/
def step (st : SimState) : SimState × Bool :=
  if ¬ st.is_running ∨ st.is_paused then (st, false)
  else
    let active_agents := st.agents.countP (fun a => a.active && a.step_ok)
    let st1 := { st with
      agents := st.agents.map advanceAgent,
      current_step := st.current_step + 1 }
    if active_agents = 0 then (stop_simulation st1, false) else (st1, true)

/-- A concrete roster: one faulting agent and one healthy agent. -/
def wState : SimState :=
  { agents := [{ agent_id := "bad", active := true, step_ok := false,
                 steps_taken := 0 },
               { agent_id := "good", active := true, step_ok := true,
                 steps_taken := 0 }],
    current_step := 5, is_running := true, is_paused := false }

end Sched

/-! ## Scheduler message flow (simulation/simulation_manager.py step,
agents/base_agent.py process_messages) -/

namespace Flow

/-- An agent as the tick loop sees it for envelope timing: its id, its
active flag, the messages its handler publishes in response to one
delivered envelope, and the messages its per-tick behavior publishes
after the in-step drain. Agent-local state mutation does not affect
envelope timing and is not modelled here. -/
structure FAgent where
  agent_id : String
  active : Bool
  handle : Message → List Message
  step_pub : List Message

/-- The handled-envelope trace of a tick: which agent handled which
envelope, in handling order. An envelope is handled exactly when a drain
passes it to the handler of the draining agent. -/
abbrev TickTrace := List (String × Message)

/-- BaseAgent.process_messages: drain the own mailbox and feed every
drained envelope to the handler, whose publishes go back to the bus; the
drained envelopes are appended to the handled trace. -/
def process_messages (a : FAgent) (acc : MessageBus.Bus × TickTrace) :
    MessageBus.Bus × TickTrace :=
  let drained := (MessageBus.deliver_messages acc.1 a.agent_id).1
  let bus1 := (MessageBus.deliver_messages acc.1 a.agent_id).2
  let bus2 := drained.foldl
    (fun b msg => (a.handle msg).foldl MessageBus.publish b) bus1
  (bus2, acc.2 ++ drained.map (fun m => (a.agent_id, m)))

/-- The per-tick advance of an agent: every agent subclass begins its
step by draining its own mailbox again (self.process_messages()) and then
runs its behavior, which publishes step_pub. -/
def agent_step (acc : MessageBus.Bus × TickTrace) (a : FAgent) :
    MessageBus.Bus × TickTrace :=
  let acc1 := process_messages a acc
  (a.step_pub.foldl MessageBus.publish acc1.1, acc1.2)

/-- SimulationManager.step restricted to message flow: the delivery pass
drains every active agent in registration order, then the advance pass
runs every active agent's step (which drains again) in the same order. -/
def tick (agents : List FAgent) (bus : MessageBus.Bus) :
    MessageBus.Bus × TickTrace :=
  (agents.filter (fun a => a.active)).foldl agent_step
    ((agents.filter (fun a => a.active)).foldl
      (fun acc a => process_messages a acc) (bus, []))

/-- Agent A of the counterexample: handling a PING publishes FWD to B. -/
def agentA : FAgent :=
  { agent_id := "A", active := true,
    handle := fun m =>
      if m.message_type = "PING"
      then [{ sender := "A", recipient := "B", message_type := "FWD",
              data := [] }]
      else [],
    step_pub := [] }

/-- Agent B of the counterexample: handling any envelope publishes an ACK
to an observer id outside the roster. -/
def agentB : FAgent :=
  { agent_id := "B", active := true,
    handle := fun m =>
      [{ sender := "B", recipient := "obs", message_type := "ACK",
         data := [("about", Val.s m.message_type)] }],
    step_pub := [] }

/-- The envelope queued for A before the tick of the counterexample. -/
def pingMsg : Message :=
  { sender := "env", recipient := "A", message_type := "PING", data := [] }

/-- The envelope A publishes to B during the tick. -/
def fwdMsg : Message :=
  { sender := "A", recipient := "B", message_type := "FWD", data := [] }

/-- The initial bus of the counterexample: one PING queued for A, nothing
queued for B. -/
def busC1 : MessageBus.Bus :=
  fun r => if r = "A" then [pingMsg] else []

end Flow

/-! ## Truck agent (agents/truck_agent.py) -/

namespace Truck

/-- The finite states of the truck. -/
inductive TruckStatus where
  | available
  | moving_to_pickup
  | loading
  | moving_to_delivery
  | unloading
deriving DecidableEq, Repr

/-- The current_order dictionary held while a truck has an assignment. -/
structure TruckOrder where
  order_id : String
  product_id : String
  quantity : Nat
  recipient : String
deriving DecidableEq, Repr

/-- agents/truck_agent.py TruckAgent state. Distances are modelled over
the rationals; the city map enters the operations as a distance
directory. The cargo weight is an integer as in the code. -/
structure TruckState where
  agent_id : String
  speed : ℚ
  capacity : Nat
  current_location_id : Option String
  destination_location_id : Option String
  status : TruckStatus
  cargo : List (String × Nat)
  current_cargo_weight : Int
  current_order : Option TruckOrder
  pickup_location_id : Option String
  delivery_location_id : Option String
  dispatcher_id : Option String
  movement_progress : ℚ
  total_distance : ℚ
  remaining_distance : ℚ
  total_distance_traveled : ℚ
  deliveries_completed : Nat
  total_cargo_delivered : Nat
  outbox : List Message
deriving DecidableEq, Repr

/-- CityMap.calculate_distance as the truck calls it: some distance for a
known pair, none when either id is unknown (the Python KeyError, which
the movement-start methods catch). -/
abbrev CMap := String → String → Option ℚ

/-- Distance lookup through the optional location fields; a missing
location id behaves like an unknown one (KeyError). -/
def mdist (cm : CMap) : Option String → Option String → Option ℚ
  | some a, some b => cm a b
  | _, _ => none

/-- BaseAgent.send_message collected in the truck outbox. -/
def send (t : TruckState) (recipient mtype : String) (data : Payload) :
    TruckState :=
  { t with outbox := t.outbox ++
      [{ sender := t.agent_id, recipient := recipient,
         message_type := mtype, data := data }] }

/-- TruckAgent._reset_to_available. The code clears the assignment fields
first — including dispatcher_id — and only afterwards tests the (already
cleared) dispatcher_id before sending TRUCK_AVAILABLE, so the test is
always false and the availability notification is never published; the
dead branch is kept verbatim. Note that the cargo fields are NOT cleared
by the reset. -/
def reset_to_available (t : TruckState) : TruckState :=
  let t1 := { t with
    status := TruckStatus.available, current_order := none,
    pickup_location_id := none, delivery_location_id := none,
    destination_location_id := none, dispatcher_id := none,
    movement_progress := 0, total_distance := 0, remaining_distance := 0 }
  match t1.dispatcher_id with
  | some d => send t1 d "TRUCK_AVAILABLE" []
  | none => t1

/-- TruckAgent._start_movement_to_pickup: aim at the pickup location and
compute the distance; an unknown location resets the truck. -/
def start_movement_to_pickup (cm : CMap) (t : TruckState) : TruckState :=
  let t1 := { t with
    destination_location_id := t.pickup_location_id,
    status := TruckStatus.moving_to_pickup, movement_progress := 0 }
  match mdist cm t1.current_location_id t1.destination_location_id with
  | some dist =>
      { t1 with total_distance := dist, remaining_distance := dist }
  | none => reset_to_available t1

/-- TruckAgent._start_movement_to_delivery: aim at the delivery location
and compute the distance; an unknown location resets the truck. -/
def start_movement_to_delivery (cm : CMap) (t : TruckState) : TruckState :=
  let t1 := { t with
    destination_location_id := t.delivery_location_id,
    status := TruckStatus.moving_to_delivery, movement_progress := 0 }
  match mdist cm t1.current_location_id t1.destination_location_id with
  | some dist =>
      { t1 with total_distance := dist, remaining_distance := dist }
  | none => reset_to_available t1

/-- TruckAgent._move_towards_destination. -/
def move_towards_destination (t : TruckState) : TruckState :=
  if t.total_distance ≤ 0 then t
  else
    let d := min t.speed t.remaining_distance
    { t with
      remaining_distance := t.remaining_distance - d,
      movement_progress := 1 - (t.remaining_distance - d) / t.total_distance,
      total_distance_traveled := t.total_distance_traveled + d }

/-- TruckAgent._has_reached_destination: tolerance 0.01. -/
def has_reached_destination (t : TruckState) : Bool :=
  t.remaining_distance ≤ 1 / 100

/-- TruckAgent._arrive_at_pickup. -/
def arrive_at_pickup (t : TruckState) : TruckState :=
  { t with
    current_location_id := t.pickup_location_id,
    status := TruckStatus.loading, movement_progress := 1,
    remaining_distance := 0 }

/-- TruckAgent._arrive_at_delivery. -/
def arrive_at_delivery (t : TruckState) : TruckState :=
  { t with
    current_location_id := t.delivery_location_id,
    status := TruckStatus.unloading, movement_progress := 1,
    remaining_distance := 0 }

/-- TruckAgent._complete_loading: credit the cargo of the current order,
notify the dispatcher of pickup completion, then head to the delivery
location (directly arriving when already there). The cargo is credited
unconditionally, with no check against remaining capacity. -/
def complete_loading (cm : CMap) (t : TruckState) : TruckState :=
  match t.current_order with
  | none => reset_to_available t
  | some o =>
      let t1 := { t with
        cargo := dictSet t.cargo o.product_id
          (dictGetD t.cargo o.product_id + o.quantity),
        current_cargo_weight := t.current_cargo_weight + o.quantity }
      let t2 := send t1 ((t1.dispatcher_id).getD "") "PICKUP_COMPLETE"
        [("order_id", Val.s o.order_id),
         ("product_id", Val.s o.product_id),
         ("quantity", Val.n o.quantity)]
      if t2.current_location_id = t2.delivery_location_id
      then arrive_at_delivery t2
      else start_movement_to_delivery cm t2

/-- TruckAgent._complete_unloading: debit the cargo when it covers the
order quantity (otherwise only log), notify the dispatcher with
DELIVERY_COMPLETE and the original recipient with DELIVERY_NOTIFICATION,
then reset to available. -/
def complete_unloading (t : TruckState) : TruckState :=
  match t.current_order with
  | none => reset_to_available t
  | some o =>
      let t1 :=
        if (dictGet t.cargo o.product_id).isSome ∧
            o.quantity ≤ dictGetD t.cargo o.product_id then
          let remaining := dictGetD t.cargo o.product_id - o.quantity
          { t with
            cargo := if remaining = 0 then dictErase t.cargo o.product_id
                     else dictSet t.cargo o.product_id remaining,
            current_cargo_weight := t.current_cargo_weight - o.quantity,
            total_cargo_delivered := t.total_cargo_delivered + o.quantity,
            deliveries_completed := t.deliveries_completed + 1 }
        else t
      let t2 := send t1 ((t1.dispatcher_id).getD "") "DELIVERY_COMPLETE"
        [("order_id", Val.s o.order_id),
         ("product_id", Val.s o.product_id),
         ("quantity", Val.n o.quantity),
         ("delivery_location", Val.s ((t1.delivery_location_id).getD ""))]
      let t3 := send t2 o.recipient "DELIVERY_NOTIFICATION"
        [("order_id", Val.s o.order_id),
         ("product_id", Val.s o.product_id),
         ("quantity", Val.n o.quantity)]
      reset_to_available t3

/-- The truthiness test the dispatch handler applies to its five checked
fields (quantity is NOT among them). -/
def required_fields_ok (m : Message) : Bool :=
  (Payload.getTruthyStr m.data "order_id").isSome &&
  (Payload.getTruthyStr m.data "product_id").isSome &&
  (Payload.getTruthyStr m.data "pickup_location").isSome &&
  (Payload.getTruthyStr m.data "delivery_location").isSome &&
  (Payload.getTruthyStr m.data "recipient").isSome

/-- TruckAgent._handle_dispatch_order: ignored unless available; returns
unchanged when one of the five checked string fields is missing or when
the quantity exceeds the capacity; quantity itself defaults to 0 when
absent and is not presence-checked. On acceptance the assignment fields
are set and the truck heads to the pickup location, loading directly
when already there. -/
def handle_dispatch_order (cm : CMap) (t : TruckState) (m : Message) :
    TruckState :=
  if t.status ≠ TruckStatus.available then t
  else if ¬ required_fields_ok m then t
  else if t.capacity < Payload.getNat m.data "quantity" then t
  else
    let pickup := (Payload.getTruthyStr m.data "pickup_location").getD ""
    let t1 := { t with
      current_order := some
        { order_id := (Payload.getTruthyStr m.data "order_id").getD "",
          product_id := (Payload.getTruthyStr m.data "product_id").getD "",
          quantity := Payload.getNat m.data "quantity",
          recipient := (Payload.getTruthyStr m.data "recipient").getD "" },
      pickup_location_id := some pickup,
      delivery_location_id :=
        some ((Payload.getTruthyStr m.data "delivery_location").getD ""),
      dispatcher_id := some m.sender }
    if t1.current_location_id = some pickup then arrive_at_pickup t1
    else start_movement_to_pickup cm t1

/-- TruckAgent.step, message processing aside: the behavior dispatch on
the current status. -/
def truck_step (cm : CMap) (t : TruckState) : TruckState :=
  match t.status with
  | TruckStatus.moving_to_pickup =>
      let t1 := move_towards_destination t
      if has_reached_destination t1 then arrive_at_pickup t1 else t1
  | TruckStatus.loading => complete_loading cm t
  | TruckStatus.moving_to_delivery =>
      let t1 := move_towards_destination t
      if has_reached_destination t1 then arrive_at_delivery t1 else t1
  | TruckStatus.unloading => complete_unloading t
  | TruckStatus.available => t

/-- A fresh truck at the warehouse location with capacity 100. -/
def freshTruck : TruckState :=
  { agent_id := "truck_1", speed := 10, capacity := 100,
    current_location_id := some "warehouse_loc",
    destination_location_id := none, status := TruckStatus.available,
    cargo := [], current_cargo_weight := 0, current_order := none,
    pickup_location_id := none, delivery_location_id := none,
    dispatcher_id := none, movement_progress := 0, total_distance := 0,
    remaining_distance := 0, total_distance_traveled := 0,
    deliveries_completed := 0, total_cargo_delivered := 0, outbox := [] }

/-- A city map with no known distance pairs: every lookup raises. The
overload run never needs a successful movement leg. -/
def emptyMap : CMap := fun _ _ => none

/-- A full-capacity dispatch instruction for product p1. -/
def dispatchMsg (oid delivery : String) : Message :=
  { sender := "warehouse_1", recipient := "truck_1",
    message_type := "DISPATCH_ORDER",
    data := [("order_id", Val.s oid), ("product_id", Val.s "p1"),
             ("quantity", Val.n 100),
             ("pickup_location", Val.s "warehouse_loc"),
             ("delivery_location", Val.s delivery),
             ("recipient", Val.s "store_1")] }

/-- The overload run: accept a full order to an unknown delivery
location, load it (the failed movement start resets the truck to
available with the cargo still on board), then accept and load a second
full order. -/
def overloadRun : TruckState :=
  truck_step emptyMap
    (handle_dispatch_order emptyMap
      (truck_step emptyMap
        (handle_dispatch_order emptyMap freshTruck
          (dispatchMsg "oA" "ghost")))
      (dispatchMsg "oB" "warehouse_loc"))

/-- A truck in the unloading phase with its cargo on board. -/
def unloadingTruck : TruckState :=
  { freshTruck with
    status := TruckStatus.unloading,
    current_location_id := some "store_loc",
    cargo := [("p1", 5)], current_cargo_weight := 5,
    current_order := some
      { order_id := "o9", product_id := "p1", quantity := 5,
        recipient := "store_1" },
    pickup_location_id := some "warehouse_loc",
    delivery_location_id := some "store_loc",
    dispatcher_id := some "warehouse_1" }

/-- A dispatch instruction carrying every required field except
quantity. -/
def noQuantityMsg : Message :=
  { sender := "warehouse_1", recipient := "truck_1",
    message_type := "DISPATCH_ORDER",
    data := [("order_id", Val.s "oC"), ("product_id", Val.s "p1"),
             ("pickup_location", Val.s "warehouse_loc"),
             ("delivery_location", Val.s "store_loc"),
             ("recipient", Val.s "store_1")] }

end Truck

/-! ## Warehouse agent (agents/warehouse_agent.py) -/

namespace Warehouse

/-- agents/warehouse_agent.py WarehouseAgent state. The dictionaries keep
insertion order; the outbox collects sent messages in send order. -/
structure WarehouseState where
  agent_id : String
  location_id : String
  inventory : List (String × Nat)
  reorder_threshold : Nat
  reorder_quantity : Nat
  pending_store_orders : List (String × Order)
  pending_factory_orders : List (String × Order)
  processing_orders : List (String × Order)
  available_trucks : List String
  assigned_trucks : List (String × String)
  orders_processed : Nat
  orders_fulfilled : Nat
  orders_rejected : Nat
  outbox : List Message
deriving DecidableEq, Repr

/-- BaseAgent.send_message collected in the warehouse outbox. -/
def send (st : WarehouseState) (recipient mtype : String)
    (data : Payload) : WarehouseState :=
  { st with outbox := st.outbox ++
      [{ sender := st.agent_id, recipient := recipient,
         message_type := mtype, data := data }] }

/-- WarehouseAgent._can_fulfill_order: on-hand inventory covers the
requested quantity. -/
def can_fulfill_order (st : WarehouseState) (o : Order) : Bool :=
  o.quantity ≤ dictGetD st.inventory o.product_id

/-- WarehouseAgent._dispatch_truck_for_order: pop the first available
truck, record the assignment and send the truck the dispatch
instruction; False when no truck is available. -/
def dispatch_truck_for_order (st : WarehouseState) (o : Order) :
    WarehouseState × Bool :=
  match st.available_trucks with
  | [] => (st, false)
  | truck_id :: rest =>
      let st1 := { st with
        available_trucks := rest,
        assigned_trucks := dictSet st.assigned_trucks truck_id o.order_id }
      (send st1 truck_id "DISPATCH_ORDER"
        [("order_id", Val.s o.order_id),
         ("product_id", Val.s o.product_id),
         ("quantity", Val.n o.quantity),
         ("pickup_location", Val.s st.location_id),
         ("delivery_location", Val.s o.delivery_location),
         ("recipient", Val.s o.requester)], true)

/-- WarehouseAgent._reject_order: ORDER_REJECTED back to the requester.
The Python reason string also interpolates the available and requested
quantities; nothing reads it, so the constant prefix stands for it. -/
def reject_order (st : WarehouseState) (o : Order) : WarehouseState :=
  send st o.requester "ORDER_REJECTED"
    [("order_id", Val.s o.order_id),
     ("reason", Val.s "Insufficient inventory")]

/-- The loop body of WarehouseAgent._process_pending_orders for one
pending entry: a fulfillable order is dispatched when a truck is
available (moved to processing, status processing, inventory debited);
with no truck it stays pending; an unfulfillable order is rejected. The
Bool reports whether the entry joins orders_to_remove. -/
def processOne (st : WarehouseState) (e : String × Order) :
    WarehouseState × Bool :=
  let o := e.2
  if can_fulfill_order st o then
    match dispatch_truck_for_order st o with
    | (st1, true) =>
        ({ st1 with
           processing_orders := dictSet st1.processing_orders e.1
             (o.update_status OrderStatus.processing),
           orders_fulfilled := st1.orders_fulfilled + 1,
           inventory := dictSet st1.inventory o.product_id
             (dictGetD st1.inventory o.product_id - o.quantity) }, true)
    | (st1, false) => (st1, false)
  else
    ({ reject_order st o with
       orders_rejected := st.orders_rejected + 1 }, true)

/-- WarehouseAgent._process_pending_orders: run the loop over the pending
entries, then delete the collected ids from the pending table. -/
def process_pending_orders (st : WarehouseState) : WarehouseState :=
  let result := st.pending_store_orders.foldl
    (fun (acc : WarehouseState × List String) e =>
      let r := processOne acc.1 e
      (r.1, if r.2 then acc.2 ++ [e.1] else acc.2))
    (st, [])
  { result.1 with
    pending_store_orders := (result.1).pending_store_orders.filter
      (fun kv => ¬ result.2.contains kv.1) }

/-- WarehouseAgent._handle_delivery_complete: when the sending truck is
assigned, return it to the available pool; when the order id is known,
mark it delivered, notify the store and drop it from processing. -/
def handle_delivery_complete (st : WarehouseState)
    (truck_id order_id : String) : WarehouseState :=
  let st1 :=
    if (dictGet st.assigned_trucks truck_id).isSome then
      { st with
        assigned_trucks := dictErase st.assigned_trucks truck_id,
        available_trucks := st.available_trucks ++ [truck_id] }
    else st
  match dictGet st1.processing_orders order_id with
  | some o =>
      let st2 := send st1 o.requester "DELIVERY_NOTIFICATION"
        [("order_id", Val.s order_id),
         ("product_id", Val.s o.product_id),
         ("quantity", Val.n o.quantity)]
      { st2 with
        processing_orders := dictErase st2.processing_orders order_id }
  | none => st1

/-- WarehouseAgent._handle_truck_available: drop the truck from the
assigned table when present, and append it to the available pool unless
it is already there. -/
def handle_truck_available (st : WarehouseState) (truck_id : String) :
    WarehouseState :=
  let st1 :=
    if (dictGet st.assigned_trucks truck_id).isSome then
      { st with assigned_trucks := dictErase st.assigned_trucks truck_id }
    else st
  if st1.available_trucks.contains truck_id then st1
  else { st1 with
    available_trucks := st1.available_trucks ++ [truck_id] }

/-- The truck-pool invariant: no duplicate ids in the available pool, no
available id in the assigned table, and unique assigned keys (assigned
is a Python dict). -/
def PoolInv (st : WarehouseState) : Prop :=
  st.available_trucks.Nodup ∧
  (∀ t ∈ st.available_trucks, dictGet st.assigned_trucks t = none) ∧
  (dictKeys st.assigned_trucks).Nodup

/-- The Scenario B warehouse: inventory five units of p1, one available
truck, one pending store order for thirty units. -/
def wWarehouse : WarehouseState :=
  { agent_id := "warehouse_1", location_id := "warehouse_loc",
    inventory := [("p1", 5)], reorder_threshold := 20,
    reorder_quantity := 100,
    pending_store_orders :=
      [("so1", { order_id := "so1", product_id := "p1", quantity := 30,
                 requester := "store_1",
                 delivery_location := "store_loc" })],
    pending_factory_orders := [], processing_orders := [],
    available_trucks := ["truck_warehouse_1_1"], assigned_trucks := [],
    orders_processed := 1, orders_fulfilled := 0, orders_rejected := 0,
    outbox := [] }

end Warehouse

end Agora

namespace Agora

/-! # Theorems -/

/-! ## Message bus lemmas and C2 -/

namespace MessageBus

theorem enqueue_length_le (q : List Message) (m : Message)
    (h : q.length ≤ maxQueueSize) :
    (enqueue q m).length ≤ maxQueueSize := by
  unfold enqueue
  split
  · rename_i hge
    have hq : q.length = maxQueueSize := Nat.le_antisymm h hge
    simp only [List.length_append, List.length_drop, List.length_cons,
      List.length_nil, hq, maxQueueSize]
    omega
  · rename_i hlt
    simp only [List.length_append, List.length_cons, List.length_nil,
      maxQueueSize] at *
    omega

theorem foldl_enqueue_length_le (msgs : List Message) :
    ∀ q : List Message, q.length ≤ maxQueueSize →
      (msgs.foldl enqueue q).length ≤ maxQueueSize := by
  induction msgs with
  | nil => intro q h; simpa using h
  | cons m ms ih =>
      intro q h
      simp only [List.foldl_cons]
      exact ih (enqueue q m) (enqueue_length_le q m h)

theorem enqueue_of_lt (q : List Message) (m : Message)
    (h : q.length < maxQueueSize) : enqueue q m = q ++ [m] := by
  unfold enqueue
  split
  · omega
  · rfl

theorem foldl_enqueue_of_le (msgs : List Message) :
    ∀ q : List Message, q.length + msgs.length ≤ maxQueueSize →
      msgs.foldl enqueue q = q ++ msgs := by
  induction msgs with
  | nil => intro q _; simp
  | cons m ms ih =>
      intro q h
      simp only [List.foldl_cons]
      rw [enqueue_of_lt q m (by simp at h; omega)]
      rw [ih (q ++ [m]) (by simp at h ⊢; omega)]
      simp

/-- Folding publishes over the bus affects exactly the queues of the
recipients; the queue of r collects the messages addressed to r via
enqueue, in publish order. -/
theorem foldl_publish_queue (msgs : List Message) :
    ∀ (bus : Bus) (r : String),
      (msgs.foldl publish bus) r =
        (msgs.filter (fun m => m.recipient = r)).foldl enqueue (bus r) := by
  induction msgs with
  | nil => intro bus r; simp
  | cons m ms ih =>
      intro bus r
      simp only [List.foldl_cons, ih]
      by_cases hr : m.recipient = r
      · simp [List.filter_cons, hr, publish]
      · have : ¬ (decide (m.recipient = r) = true) := by simpa using hr
        simp only [List.filter_cons, this, if_neg]
        have hbus : publish bus m r = bus r := by
          unfold publish
          rw [if_neg (fun hc => hr hc.symm)]
        rw [hbus]
        simp [hr]

end MessageBus

/-- C2 counterpart at the level of one queue: 101 enqueues into an empty
queue leave the 2nd through 101st messages, in order. -/
theorem foldl_enqueue_101 (msgs : List Message)
    (h : msgs.length = MessageBus.maxQueueSize + 1) :
    msgs.foldl MessageBus.enqueue [] = msgs.drop 1 := by
  have hsplit : msgs = msgs.take MessageBus.maxQueueSize ++
      msgs.drop MessageBus.maxQueueSize := (List.take_append_drop _ _).symm
  have htake : (msgs.take MessageBus.maxQueueSize).length =
      MessageBus.maxQueueSize := by
    simp [List.length_take, h]
  have hfold1 : (msgs.take MessageBus.maxQueueSize).foldl
      MessageBus.enqueue [] = msgs.take MessageBus.maxQueueSize := by
    have := MessageBus.foldl_enqueue_of_le
      (msgs.take MessageBus.maxQueueSize) []
    simpa [htake] using this
  have hdroplen : (msgs.drop MessageBus.maxQueueSize).length = 1 := by
    simp [List.length_drop, h]
  obtain ⟨m, hm⟩ : ∃ m, msgs.drop MessageBus.maxQueueSize = [m] := by
    match hd : msgs.drop MessageBus.maxQueueSize with
    | [] => rw [hd] at hdroplen; simp at hdroplen
    | [m] => exact ⟨m, rfl⟩
    | m :: m2 :: ms => rw [hd] at hdroplen; simp at hdroplen
  conv_lhs => rw [hsplit]
  rw [hm, List.foldl_append, hfold1]
  simp only [List.foldl_cons, List.foldl_nil]
  unfold MessageBus.enqueue
  rw [if_pos (by rw [htake])]
  conv_rhs => rw [hsplit, hm]
  rw [List.drop_append_eq_append_drop, htake]
  simp [MessageBus.maxQueueSize]

/-- C2: per-recipient mailboxes are bounded by 100 under any publish
sequence; a publish to a full mailbox evicts the oldest envelope and still
admits the new one at the back; 101 publishes to one recipient with no
intervening drain make the drain return exactly the 2nd through 101st
published envelopes, in publish order. -/
theorem mailbox_bound_and_drop_oldest :
    (∀ (msgs : List Message) (r : String),
        ((msgs.foldl MessageBus.publish MessageBus.emptyBus) r).length ≤
          MessageBus.maxQueueSize) ∧
    (∀ (q : List Message) (m : Message),
        q.length = MessageBus.maxQueueSize →
        MessageBus.enqueue q m = q.drop 1 ++ [m]) ∧
    (∀ (r : String) (msgs : List Message),
        (∀ m ∈ msgs, m.recipient = r) →
        msgs.length = 101 →
        (MessageBus.deliver_messages
            (msgs.foldl MessageBus.publish MessageBus.emptyBus) r).1 =
            msgs.drop 1 ∧
          (MessageBus.deliver_messages
            (msgs.foldl MessageBus.publish MessageBus.emptyBus) r).1.length
            = 100) := by
  refine ⟨?_, ?_, ?_⟩
  · intro msgs r
    rw [MessageBus.foldl_publish_queue]
    exact MessageBus.foldl_enqueue_length_le _ _ (by simp [MessageBus.emptyBus])
  · intro q m hq
    unfold MessageBus.enqueue
    rw [if_pos (le_of_eq hq.symm)]
  · intro r msgs hall hlen
    have hfilter : msgs.filter (fun m => m.recipient = r) = msgs := by
      apply List.filter_eq_self.mpr
      intro m hm
      simpa using hall m hm
    have hq : (msgs.foldl MessageBus.publish MessageBus.emptyBus) r =
        msgs.drop 1 := by
      rw [MessageBus.foldl_publish_queue, hfilter]
      exact foldl_enqueue_101 msgs (by simpa using hlen)
    constructor
    · simpa [MessageBus.deliver_messages] using hq
    · simp only [MessageBus.deliver_messages]
      rw [hq]
      simp [hlen]

/-- Witness for C2 at a concrete input: 101 concrete messages to one
recipient. -/
theorem mailbox_bound_and_drop_oldest_witness :
    (MessageBus.deliver_messages
        (((List.range 101).map
            (fun i => Message.mk "s" "r" "T" [("i", Val.n i)])).foldl
          MessageBus.publish MessageBus.emptyBus) "r").1 =
      ((List.range 101).map
          (fun i => Message.mk "s" "r" "T" [("i", Val.n i)])).drop 1 := by
  exact (mailbox_bound_and_drop_oldest.2.2 "r"
    ((List.range 101).map (fun i => Message.mk "s" "r" "T" [("i", Val.n i)]))
    (by intro m hm; simp only [List.mem_map] at hm; obtain ⟨i, _, hi⟩ := hm
        rw [← hi])
    (by simp)).1

/-! ## C3: order status transitions -/

/-- C3 counterexample: update_status lets a pending order jump directly to
delivered, and lets a delivered order change again (back to pending), so
the status lattice of the claim is not enforced by any operation guard. -/
theorem order_status_not_monotone :
    ((Order.update_status
        (Order.update_status
          { order_id := "o1", product_id := "p1", quantity := 5,
            requester := "store_1" } OrderStatus.delivered)
        OrderStatus.pending).status = OrderStatus.pending) ∧
    ((Order.update_status
        { order_id := "o1", product_id := "p1", quantity := 5,
          requester := "store_1" } OrderStatus.delivered).status =
      OrderStatus.delivered) ∧
    ({ order_id := "o1", product_id := "p1", quantity := 5,
       requester := "store_1" : Order }.status = OrderStatus.pending) := by
  refine ⟨rfl, rfl, rfl⟩

/-- C3 amended: update_status performs no transition validation beyond
the status-name check subsumed by the OrderStatus type: it sets exactly
the requested status whatever the current status is, leaving every other
field unchanged, so regressions and the direct pending-to-delivered jump
(which the factory fulfill-from-inventory path performs) are permitted. -/
theorem order_update_status_unrestricted :
    ∀ (o : Order) (s : OrderStatus),
      (o.update_status s).status = s ∧
      (o.update_status s).order_id = o.order_id ∧
      (o.update_status s).product_id = o.product_id ∧
      (o.update_status s).quantity = o.quantity ∧
      (o.update_status s).requester = o.requester := by
  intro o s
  exact ⟨rfl, rfl, rfl, rfl, rfl⟩

/-! ## Dictionary lemmas -/

theorem mem_dictSet {α : Type} (d : List (String × α)) (k : String) (v : α)
    (e : String × α) (he : e ∈ dictSet d k v) : e ∈ d ∨ e = (k, v) := by
  induction d with
  | nil =>
      simp only [dictSet, List.mem_singleton] at he
      exact Or.inr he
  | cons kv tl ih =>
      simp only [dictSet] at he
      by_cases h : kv.1 = k
      · rw [if_pos h] at he
        rcases List.mem_cons.mp he with h1 | h1
        · exact Or.inr h1
        · exact Or.inl (List.mem_cons_of_mem _ h1)
      · rw [if_neg h] at he
        rcases List.mem_cons.mp he with h1 | h1
        · exact Or.inl (by simp [h1])
        · rcases ih h1 with h2 | h2
          · exact Or.inl (List.mem_cons_of_mem _ h2)
          · exact Or.inr h2

/-! ## C7: factory production scheduling -/

theorem startLoop_mem (n : Nat) :
    ∀ (st : Factory.FactoryState) (e : String × Factory.ActiveJob),
      e ∈ (Factory.startLoop st n).active_production →
      e ∈ st.active_production ∨
        (e.2.start_time = st.current_time_step ∧
          e.2.completion_time = st.current_time_step + st.production_time) := by
  induction n with
  | zero => intro st e he; exact Or.inl he
  | succ cap ih =>
      intro st e he
      rw [Factory.startLoop] at he
      cases hq : st.production_queue with
      | nil => rw [hq] at he; exact Or.inl he
      | cons o rest =>
          rw [hq] at he
          rcases ih _ e he with h1 | h1
          · simp only at h1
            rcases mem_dictSet _ _ _ _ h1 with h2 | h2
            · exact Or.inl h2
            · right
              rw [h2]
              exact ⟨rfl, rfl⟩
          · right
            simpa using h1

/-- C7: each factory tick retires every job whose completion step has
been reached before starting queued orders in FIFO order up to spare
capacity, and every job started by the start loop has its completion step
fixed at the current step plus the lead time. In the Scenario C run
(capacity 2, lead time 3, three orders queued before the first tick;
the code labels the k-th tick, counted from 0, with internal counter
k + 1): orders o1 and o2 start during tick 0 (start counter 1) with
completion counter 4 = 1 + 3, remain active through tick 2, are retired
during tick 3, during which o3 starts (counter 4, completion 7), and o3
is retired during tick 6, after which the finished-goods inventory holds
all thirty produced units. -/
theorem factory_capacity_and_lead_time :
    (∀ (st : Factory.FactoryState) (n : Nat)
        (e : String × Factory.ActiveJob),
        e ∈ (Factory.startLoop st n).active_production →
        e ∈ st.active_production ∨
          (e.2.start_time = st.current_time_step ∧
            e.2.completion_time =
              st.current_time_step + st.production_time)) ∧
    ((Factory.factoryRun Factory.scenCState 1).active_production =
        [("o1", { order := { order_id := "o1", product_id := "p1",
                             quantity := 10, requester := "warehouse_1",
                             status := OrderStatus.processing },
                  start_time := 1, completion_time := 4 }),
         ("o2", { order := { order_id := "o2", product_id := "p1",
                             quantity := 10, requester := "warehouse_1",
                             status := OrderStatus.processing },
                  start_time := 1, completion_time := 4 })] ∧
      (Factory.factoryRun Factory.scenCState 1).production_queue =
        [Factory.scenOrder 3]) ∧
    ((Factory.factoryRun Factory.scenCState 3).active_production =
        (Factory.factoryRun Factory.scenCState 1).active_production ∧
      (Factory.factoryRun Factory.scenCState 3).outbox = []) ∧
    ((Factory.factoryRun Factory.scenCState 4).active_production =
        [("o3", { order := { order_id := "o3", product_id := "p1",
                             quantity := 10, requester := "warehouse_1",
                             status := OrderStatus.processing },
                  start_time := 4, completion_time := 7 })] ∧
      (Factory.factoryRun Factory.scenCState 4).production_queue = [] ∧
      (Factory.factoryRun Factory.scenCState 4).outbox.map
          (fun m => (m.message_type, m.recipient,
            Payload.get m.data "order_id")) =
        [("PRODUCTION_COMPLETE", "warehouse_1", some (Val.s "o1")),
         ("PRODUCTION_COMPLETE", "warehouse_1", some (Val.s "o2"))]) ∧
    ((Factory.factoryRun Factory.scenCState 6).active_production =
        (Factory.factoryRun Factory.scenCState 4).active_production ∧
      (Factory.factoryRun Factory.scenCState 7).active_production = [] ∧
      (Factory.factoryRun Factory.scenCState 7).outbox.map
          (fun m => (m.message_type, Payload.get m.data "order_id")) =
        [("PRODUCTION_COMPLETE", some (Val.s "o1")),
         ("PRODUCTION_COMPLETE", some (Val.s "o2")),
         ("PRODUCTION_COMPLETE", some (Val.s "o3"))] ∧
      dictGetD
        ((Factory.factoryRun Factory.scenCState 7).finished_goods_inventory)
        "p1" = 30) := by
  refine ⟨fun st n e => startLoop_mem n st e, ?_, ?_, ?_, ?_⟩
  · exact ⟨by decide, by decide⟩
  · exact ⟨by decide, by decide⟩
  · exact ⟨by decide, by decide, by decide⟩
  · exact ⟨by decide, by decide, by decide, by decide⟩

/-- Witness for C7: the general start-loop clause applied at a concrete
state, discharging its membership hypothesis on a concrete job entry. -/
theorem factory_capacity_and_lead_time_witness :
    ("o1", { order := { order_id := "o1", product_id := "p1",
                        quantity := 10, requester := "warehouse_1",
                        status := OrderStatus.processing },
             start_time := 0,
             completion_time := 3 : Factory.ActiveJob }) ∈
        ({ Factory.scenCState with
            production_queue := [Factory.scenOrder 1] } :
          Factory.FactoryState).active_production ∨
      ((0 : Nat) = Factory.scenCState.current_time_step ∧
        (3 : Nat) = Factory.scenCState.current_time_step +
          Factory.scenCState.production_time) :=
  factory_capacity_and_lead_time.1
    { Factory.scenCState with production_queue := [Factory.scenOrder 1] }
    2
    ("o1", { order := { order_id := "o1", product_id := "p1",
                        quantity := 10, requester := "warehouse_1",
                        status := OrderStatus.processing },
             start_time := 0, completion_time := 3 })
    (by decide)

/-! ## C5: scheduler fault isolation -/

/-- C5: when the scheduler is running and not paused, a tick advances
every active actor (positionally: a faulting active actor ends the tick
deactivated, a healthy active actor ends it advanced by one step, as
long as the tick does not empty the roster); the tick result is False
exactly when zero actors completed their advance, in which case the
scheduler auto-stops and every agent ends deactivated; otherwise the
scheduler keeps running, so an actor fault alone never halts it. -/
theorem scheduler_fault_isolation :
    ∀ st : Sched.SimState, st.is_running = true → st.is_paused = false →
      ((Sched.step st).1.current_step = st.current_step + 1) ∧
      ((Sched.step st).2 = true ↔
        st.agents.countP (fun a => a.active && a.step_ok) ≠ 0) ∧
      ((Sched.step st).1.is_running = true ↔
        st.agents.countP (fun a => a.active && a.step_ok) ≠ 0) ∧
      (st.agents.countP (fun a => a.active && a.step_ok) = 0 →
        ∀ a ∈ (Sched.step st).1.agents, a.active = false) ∧
      List.Forall₂ (fun a b =>
          (a.active = true → a.step_ok = false → b.active = false) ∧
          (st.agents.countP (fun c => c.active && c.step_ok) ≠ 0 →
            a.active = true → a.step_ok = true →
            b = { a with steps_taken := a.steps_taken + 1 }))
        st.agents (Sched.step st).1.agents := by
  intro st hrun hpause
  have hcond : ¬ (¬ st.is_running = true ∨ st.is_paused = true) := by
    simp [hrun, hpause]
  by_cases hz : st.agents.countP (fun a => a.active && a.step_ok) = 0
  · have hstep : Sched.step st =
        (Sched.stop_simulation
          { st with agents := st.agents.map Sched.advanceAgent,
                    current_step := st.current_step + 1 }, false) := by
      unfold Sched.step
      rw [if_neg (by simpa using hcond), if_pos hz]
    rw [hstep]
    refine ⟨rfl, by simp [hz], by simp [Sched.stop_simulation, hz], ?_, ?_⟩
    · intro _ a ha
      simp only [Sched.stop_simulation, List.map_map, List.mem_map]
        at ha
      obtain ⟨c, _, hc⟩ := ha
      rw [← hc]
      rfl
    · simp only [Sched.stop_simulation, List.map_map]
      rw [List.forall₂_map_right_iff, List.forall₂_same]
      intro a _
      refine ⟨fun _ _ => rfl, fun hne _ _ => absurd hz hne⟩
  · have hstep : Sched.step st =
        ({ st with agents := st.agents.map Sched.advanceAgent,
                   current_step := st.current_step + 1 }, true) := by
      unfold Sched.step
      rw [if_neg (by simpa using hcond), if_neg hz]
    rw [hstep]
    refine ⟨rfl, by simp [hz], by simp [hrun, hz], fun hc => absurd hc hz, ?_⟩
    rw [List.forall₂_map_right_iff, List.forall₂_same]
    intro a _
    constructor
    · intro hact hbad
      simp [Sched.advanceAgent, Sched.deactivate, hact, hbad]
    · intro _ hact hok
      simp [Sched.advanceAgent, hact, hok]

/-- Witness for C5: the concrete roster with one faulting and one healthy
agent; the tick reports success because one agent completed its advance. -/
theorem scheduler_fault_isolation_witness :
    (Sched.step Sched.wState).2 = true :=
  ((scheduler_fault_isolation Sched.wState rfl rfl).2.1).mpr (by decide)

/-! ## C1: envelope timing across a tick -/

/-- C1 counterexample: agent B begins the tick with an empty mailbox, yet
handles during that same tick the FWD envelope that agent A published to
it during the tick (A handled its queued PING in the delivery pass and
published FWD; B, drained later in the same pass, handled FWD at once),
and B finishes the tick with an empty mailbox, so nothing is left for the
next delivery phase: one-tick latency does not hold. -/
theorem same_tick_delivery_occurs :
    Flow.busC1 "B" = [] ∧
    ("B", Flow.fwdMsg) ∈ (Flow.tick [Flow.agentA, Flow.agentB] Flow.busC1).2 ∧
    (Flow.tick [Flow.agentA, Flow.agentB] Flow.busC1).1 "B" = [] := by
  refine ⟨rfl, ?_, ?_⟩
  · decide
  · decide

/-- C1 amended: within a tick the delivery pass over all active actors
does run before any advance, but an envelope published during the tick
can be handled by its recipient in that same tick, both because later
actors in the pass drain after earlier handlers publish and because each
advance drains its own mailbox again. One-tick latency is guaranteed only
for envelopes published by the advance of the final active actor of the
roster: the handled trace of a tick is independent of what that advance
publishes, so none of its publishes is handled before the next tick. -/
theorem last_advance_publishes_not_handled_same_tick :
    ∀ (as : List Flow.FAgent) (a : Flow.FAgent) (pubs : List Message)
      (bus : MessageBus.Bus),
      (Flow.tick (as ++ [{ a with step_pub := pubs }]) bus).2 =
        (Flow.tick (as ++ [a]) bus).2 := by
  intro as a pubs bus
  unfold Flow.tick
  by_cases ha : a.active = true
  · have e1 : (as ++ [{ a with step_pub := pubs }]).filter
        (fun x => x.active) =
        as.filter (fun x => x.active) ++ [{ a with step_pub := pubs }] := by
      rw [List.filter_append]
      congr 1
      simp [List.filter_cons, ha]
    have e2 : (as ++ [a]).filter (fun x => x.active) =
        as.filter (fun x => x.active) ++ [a] := by
      rw [List.filter_append]
      congr 1
      simp [List.filter_cons, ha]
    rw [e1, e2]
    rw [List.foldl_append, List.foldl_append, List.foldl_append,
      List.foldl_append]
    rfl
  · have e1 : (as ++ [{ a with step_pub := pubs }]).filter
        (fun x => x.active) = as.filter (fun x => x.active) := by
      rw [List.filter_append]
      simp [List.filter_cons, ha]
    have e2 : (as ++ [a]).filter (fun x => x.active) =
        as.filter (fun x => x.active) := by
      rw [List.filter_append]
      simp [List.filter_cons, ha]
    rw [e1, e2]

theorem dictGet_eq_none_iff {α : Type} (d : List (String × α))
    (k : String) : dictGet d k = none ↔ ∀ kv ∈ d, kv.1 ≠ k := by
  induction d with
  | nil => simp [dictGet]
  | cons kv tl ih =>
      by_cases h : kv.1 = k
      · simp [dictGet, h]
      · simp [dictGet, h, ih]

theorem not_mem_dictKeys_of_none {α : Type} (d : List (String × α))
    (k : String) (h : dictGet d k = none) : k ∉ dictKeys d := by
  intro hk
  simp only [dictKeys, List.mem_map] at hk
  obtain ⟨kv, hmem, hfst⟩ := hk
  exact (dictGet_eq_none_iff d k).mp h kv hmem hfst

theorem dictGet_dictSet_self {α : Type} (d : List (String × α))
    (k : String) (v : α) : dictGet (dictSet d k v) k = some v := by
  induction d with
  | nil => simp [dictSet, dictGet]
  | cons kv tl ih =>
      by_cases h : kv.1 = k
      · simp [dictSet, h, dictGet]
      · simp [dictSet, h, dictGet, ih]

theorem dictGet_dictSet_ne {α : Type} (d : List (String × α))
    (k k2 : String) (v : α) (h : k2 ≠ k) :
    dictGet (dictSet d k v) k2 = dictGet d k2 := by
  induction d with
  | nil => simp [dictSet, dictGet, Ne.symm h]
  | cons kv tl ih =>
      by_cases h2 : kv.1 = k
      · simp [dictSet, h2, dictGet, Ne.symm h, h2.symm ▸ Ne.symm h]
      · simp only [dictSet, if_neg h2]
        by_cases h3 : kv.1 = k2
        · simp [dictGet, h3]
        · simp [dictGet, h3, ih]

theorem dictErase_sublist {α : Type} (d : List (String × α))
    (k : String) : List.Sublist (dictErase d k) d := by
  induction d with
  | nil => simp [dictErase]
  | cons kv tl ih =>
      by_cases h : kv.1 = k
      · simp only [dictErase, if_pos h]
        exact List.sublist_cons_self kv tl
      · simp only [dictErase, if_neg h]
        exact ih.cons₂ kv

theorem dictGet_dictErase_none {α : Type} (d : List (String × α))
    (k t : String) (h : dictGet d t = none) :
    dictGet (dictErase d k) t = none := by
  rw [dictGet_eq_none_iff] at h ⊢
  intro kv hkv
  exact h kv ((dictErase_sublist d k).subset hkv)

theorem dictGet_dictErase_self {α : Type} (d : List (String × α))
    (k : String) (hnd : (dictKeys d).Nodup) :
    dictGet (dictErase d k) k = none := by
  induction d with
  | nil => simp [dictErase, dictGet]
  | cons kv tl ih =>
      simp only [dictKeys, List.map_cons, List.nodup_cons] at hnd
      by_cases h : kv.1 = k
      · simp only [dictErase, if_pos h]
        rw [dictGet_eq_none_iff]
        intro kv2 hkv2 hc
        exact hnd.1 (by
          rw [← h, ← hc] at *
          exact List.mem_map.mpr ⟨kv2, hkv2, hc ▸ rfl⟩)
      · simp only [dictErase, if_neg h, dictGet, if_neg h]
        exact ih hnd.2

theorem dictKeys_dictSet_of_none {α : Type} (d : List (String × α))
    (k : String) (v : α) (h : dictGet d k = none) :
    dictKeys (dictSet d k v) = dictKeys d ++ [k] := by
  induction d with
  | nil => simp [dictSet, dictKeys]
  | cons kv tl ih =>
      rw [dictGet] at h
      by_cases h2 : kv.1 = k
      · rw [if_pos h2] at h
        exact absurd h (by simp)
      · rw [if_neg h2] at h
        simp only [dictSet, if_neg h2, dictKeys, List.map_cons]
        rw [show List.map Prod.fst (dictSet tl k v) =
          dictKeys (dictSet tl k v) from rfl, ih h]
        simp [dictKeys]

theorem dictKeys_dictErase_nodup {α : Type} (d : List (String × α))
    (k : String) (hnd : (dictKeys d).Nodup) :
    (dictKeys (dictErase d k)).Nodup :=
  hnd.sublist ((dictErase_sublist d k).map Prod.fst)

/-! ## C4: unloading completion -/

/-- C4: completing the unload of any assigned order debits cargo when the
cargo covers it, sends DELIVERY_COMPLETE to the dispatcher and
DELIVERY_NOTIFICATION to the original recipient, and resets the carrier
to available unconditionally (also on a cargo mismatch) — but it never
sends TRUCK_AVAILABLE, because reset_to_available clears dispatcher_id
before testing it: the outbox gains exactly the two delivery messages. -/
theorem unloading_resets_without_truck_available :
    ∀ (t : Truck.TruckState) (o : Truck.TruckOrder),
      t.current_order = some o →
      (Truck.complete_unloading t).status = Truck.TruckStatus.available ∧
      (Truck.complete_unloading t).current_order = none ∧
      (Truck.complete_unloading t).outbox.map (fun m => m.message_type) =
        t.outbox.map (fun m => m.message_type) ++
          ["DELIVERY_COMPLETE", "DELIVERY_NOTIFICATION"] := by
  intro t o h
  unfold Truck.complete_unloading
  rw [h]
  by_cases hc : (dictGet t.cargo o.product_id).isSome ∧
      o.quantity ≤ dictGetD t.cargo o.product_id
  · simp [hc, Truck.send, Truck.reset_to_available]
  · simp [hc, Truck.send, Truck.reset_to_available]

/-- Witness for C4: the concrete unloading truck; its dispatcher is set,
yet the outbox after unloading holds exactly the two delivery messages
(and the cargo was debited to empty). -/
theorem unloading_resets_without_truck_available_witness :
    ((Truck.complete_unloading Truck.unloadingTruck).status =
        Truck.TruckStatus.available ∧
      (Truck.complete_unloading Truck.unloadingTruck).current_order =
        none ∧
      (Truck.complete_unloading Truck.unloadingTruck).outbox.map
          (fun m => m.message_type) =
        Truck.unloadingTruck.outbox.map (fun m => m.message_type) ++
          ["DELIVERY_COMPLETE", "DELIVERY_NOTIFICATION"]) ∧
    Truck.unloadingTruck.dispatcher_id = some "warehouse_1" ∧
    (Truck.complete_unloading Truck.unloadingTruck).cargo = [] ∧
    (Truck.complete_unloading Truck.unloadingTruck).current_cargo_weight
      = 0 :=
  ⟨unloading_resets_without_truck_available Truck.unloadingTruck
      { order_id := "o9", product_id := "p1", quantity := 5,
        recipient := "store_1" } rfl,
    rfl, by decide, by decide⟩

/-! ## C8: dispatch validation -/

/-- C8 counterexample: a dispatch instruction missing the quantity field
is accepted, not rejected — the truck leaves the available state and
takes the order with quantity 0, because the required-field check of the
handler omits quantity and data.get defaults it to 0. -/
theorem dispatch_missing_quantity_accepted :
    Truck.freshTruck.status = Truck.TruckStatus.available ∧
    (Truck.handle_dispatch_order Truck.emptyMap Truck.freshTruck
        Truck.noQuantityMsg).status = Truck.TruckStatus.loading ∧
    (Truck.handle_dispatch_order Truck.emptyMap Truck.freshTruck
        Truck.noQuantityMsg).current_order =
      some { order_id := "oC", product_id := "p1", quantity := 0,
             recipient := "store_1" } := by
  refine ⟨rfl, by decide, by decide⟩

/-- C8 amended: a dispatch instruction is accepted only while available;
it is rejected with no state change when any of order_id, product_id,
pickup_location, delivery_location or recipient is missing (or empty),
or when the quantity exceeds the capacity; a missing quantity, however,
is not rejected: it defaults to 0 and the instruction is accepted. -/
theorem dispatch_validation :
    ∀ (cm : Truck.CMap) (t : Truck.TruckState) (m : Message),
      (t.status ≠ Truck.TruckStatus.available →
        Truck.handle_dispatch_order cm t m = t) ∧
      (t.status = Truck.TruckStatus.available →
        Truck.required_fields_ok m = false →
        Truck.handle_dispatch_order cm t m = t) ∧
      (t.status = Truck.TruckStatus.available →
        t.capacity < Payload.getNat m.data "quantity" →
        Truck.handle_dispatch_order cm t m = t) ∧
      (t.status = Truck.TruckStatus.available →
        Truck.required_fields_ok m = true →
        Payload.get m.data "quantity" = none →
        t.current_location_id =
          some ((Payload.getTruthyStr m.data "pickup_location").getD "") →
        (Truck.handle_dispatch_order cm t m).status =
            Truck.TruckStatus.loading ∧
          (Truck.handle_dispatch_order cm t m).current_order =
            some { order_id :=
                     (Payload.getTruthyStr m.data "order_id").getD "",
                   product_id :=
                     (Payload.getTruthyStr m.data "product_id").getD "",
                   quantity := 0,
                   recipient :=
                     (Payload.getTruthyStr m.data "recipient").getD "" }) := by
  intro cm t m
  refine ⟨?_, ?_, ?_, ?_⟩
  · intro h
    simp [Truck.handle_dispatch_order, h]
  · intro h hf
    simp [Truck.handle_dispatch_order, h, hf]
  · intro h hq
    by_cases hf : Truck.required_fields_ok m
    · simp [Truck.handle_dispatch_order, h, hf, hq]
    · simp [Truck.handle_dispatch_order, h, hf]
  · intro h hf hq hloc
    have hqn : Payload.getNat m.data "quantity" = 0 := by
      simp [Payload.getNat, hq]
    constructor
    · simp [Truck.handle_dispatch_order, h, hf, hqn, hloc,
        Truck.arrive_at_pickup]
    · simp [Truck.handle_dispatch_order, h, hf, hqn, hloc,
        Truck.arrive_at_pickup]

/-- Witness for C8: the amended acceptance clause applied to the fresh
truck and the quantity-free dispatch message. -/
theorem dispatch_validation_witness :
    (Truck.handle_dispatch_order Truck.emptyMap Truck.freshTruck
        Truck.noQuantityMsg).status = Truck.TruckStatus.loading ∧
    (Truck.handle_dispatch_order Truck.emptyMap Truck.freshTruck
        Truck.noQuantityMsg).current_order =
      some { order_id :=
               (Payload.getTruthyStr Truck.noQuantityMsg.data
                 "order_id").getD "",
             product_id :=
               (Payload.getTruthyStr Truck.noQuantityMsg.data
                 "product_id").getD "",
             quantity := 0,
             recipient :=
               (Payload.getTruthyStr Truck.noQuantityMsg.data
                 "recipient").getD "" } :=
  (dispatch_validation Truck.emptyMap Truck.freshTruck
    Truck.noQuantityMsg).2.2.2 rfl (by decide) (by decide) (by decide)

/-! ## C9: carrier capacity -/

/-- C9: a reachable operation sequence pushes the in-transit cargo above
the declared capacity. The truck accepts a full-capacity order whose
delivery location is unknown to the map; loading succeeds and the failed
movement start resets the truck to available WITHOUT clearing its cargo;
a second full-capacity order is then accepted (the dispatch check
compares against total capacity, not remaining capacity) and loaded, so
the truck carries 200 units against capacity 100. -/
theorem carrier_capacity_exceeded :
    Truck.overloadRun.current_cargo_weight = 200 ∧
    dictGetD Truck.overloadRun.cargo "p1" = 200 ∧
    Truck.overloadRun.capacity = 100 ∧
    (Truck.overloadRun.capacity : Int) <
      Truck.overloadRun.current_cargo_weight ∧
    Truck.overloadRun.status = Truck.TruckStatus.unloading := by
  refine ⟨by decide, by decide, by decide, by decide, by decide⟩

/-! ## C10: truck pool consistency -/

theorem poolInv_dispatch (st : Warehouse.WarehouseState) (o : Order)
    (h : Warehouse.PoolInv st) :
    Warehouse.PoolInv (Warehouse.dispatch_truck_for_order st o).1 := by
  obtain ⟨hnd, hdisj, hknd⟩ := h
  cases htr : st.available_trucks with
  | nil =>
      simp only [Warehouse.dispatch_truck_for_order, htr]
      exact ⟨hnd, hdisj, hknd⟩
  | cons t rest =>
      rw [htr] at hnd
      have htn : dictGet st.assigned_trucks t = none :=
        hdisj t (by rw [htr]; exact List.mem_cons_self t rest)
      simp only [Warehouse.dispatch_truck_for_order, htr, Warehouse.send]
      refine ⟨List.Nodup.of_cons hnd, ?_, ?_⟩
      · intro t2 ht2
        have hne : t2 ≠ t := by
          intro hc
          exact (List.nodup_cons.mp hnd).1 (hc ▸ ht2)
        rw [dictGet_dictSet_ne _ _ _ _ hne]
        exact hdisj t2 (by rw [htr]; exact List.mem_cons_of_mem _ ht2)
      · show (dictKeys (dictSet st.assigned_trucks t o.order_id)).Nodup
        rw [dictKeys_dictSet_of_none _ _ _ htn, List.nodup_append]
        refine ⟨hknd, by simp, ?_⟩
        intro x hx hx2
        simp only [List.mem_singleton] at hx2
        subst hx2
        exact not_mem_dictKeys_of_none _ _ htn hx

theorem poolInv_truck_returned (st : Warehouse.WarehouseState)
    (truck_id : String) (hnd : st.available_trucks.Nodup)
    (hdisj : ∀ t ∈ st.available_trucks,
      dictGet st.assigned_trucks t = none)
    (hknd : (dictKeys st.assigned_trucks).Nodup)
    (hassigned : (dictGet st.assigned_trucks truck_id).isSome) :
    (st.available_trucks ++ [truck_id]).Nodup ∧
    (∀ t ∈ st.available_trucks ++ [truck_id],
      dictGet (dictErase st.assigned_trucks truck_id) t = none) ∧
    (dictKeys (dictErase st.assigned_trucks truck_id)).Nodup := by
  refine ⟨?_, ?_, dictKeys_dictErase_nodup _ _ hknd⟩
  · rw [List.nodup_append]
    refine ⟨hnd, by simp, ?_⟩
    intro x hx hx2
    simp only [List.mem_singleton] at hx2
    subst hx2
    rw [hdisj x hx] at hassigned
    simp at hassigned
  · intro t ht
    rcases List.mem_append.mp ht with h1 | h1
    · exact dictGet_dictErase_none _ _ _ (hdisj t h1)
    · simp only [List.mem_singleton] at h1
      subst h1
      exact dictGet_dictErase_self _ _ hknd

theorem poolInv_delivery_complete (st : Warehouse.WarehouseState)
    (truck_id order_id : String) (h : Warehouse.PoolInv st) :
    Warehouse.PoolInv
      (Warehouse.handle_delivery_complete st truck_id order_id) := by
  obtain ⟨hnd, hdisj, hknd⟩ := h
  unfold Warehouse.handle_delivery_complete
  by_cases hassigned : (dictGet st.assigned_trucks truck_id).isSome
  · rw [if_pos hassigned]
    have hpool := poolInv_truck_returned st truck_id hnd hdisj hknd
      hassigned
    cases hpo : dictGet st.processing_orders order_id with
    | some o =>
        simp only [hpo, Warehouse.send]
        exact hpool
    | none =>
        simp only [hpo]
        exact hpool
  · rw [if_neg hassigned]
    cases hpo : dictGet st.processing_orders order_id with
    | some o =>
        simp only [hpo, Warehouse.send]
        exact ⟨hnd, hdisj, hknd⟩
    | none =>
        simp only [hpo]
        exact ⟨hnd, hdisj, hknd⟩

theorem poolInv_truck_available (st : Warehouse.WarehouseState)
    (truck_id : String) (h : Warehouse.PoolInv st) :
    Warehouse.PoolInv
      (Warehouse.handle_truck_available st truck_id) := by
  obtain ⟨hnd, hdisj, hknd⟩ := h
  unfold Warehouse.handle_truck_available
  by_cases hassigned : (dictGet st.assigned_trucks truck_id).isSome
  · rw [if_pos hassigned]
    by_cases hin : st.available_trucks.contains truck_id
    · rw [if_pos hin]
      refine ⟨hnd, ?_, dictKeys_dictErase_nodup _ _ hknd⟩
      intro t ht
      exact dictGet_dictErase_none _ _ _ (hdisj t ht)
    · rw [if_neg hin]
      refine ⟨?_, ?_, dictKeys_dictErase_nodup _ _ hknd⟩
      · rw [List.nodup_append]
        refine ⟨hnd, by simp, ?_⟩
        intro x hx hx2
        simp only [List.mem_singleton] at hx2
        subst hx2
        exact hin (by simpa using hx)
      · intro t ht
        rcases List.mem_append.mp ht with h1 | h1
        · exact dictGet_dictErase_none _ _ _ (hdisj t h1)
        · simp only [List.mem_singleton] at h1
          subst h1
          exact dictGet_dictErase_self _ _ hknd
  · rw [if_neg hassigned]
    have hnone : dictGet st.assigned_trucks truck_id = none :=
      Option.not_isSome_iff_eq_none.mp hassigned
    by_cases hin : st.available_trucks.contains truck_id
    · rw [if_pos hin]
      exact ⟨hnd, hdisj, hknd⟩
    · rw [if_neg hin]
      refine ⟨?_, ?_, hknd⟩
      · rw [List.nodup_append]
        refine ⟨hnd, by simp, ?_⟩
        intro x hx hx2
        simp only [List.mem_singleton] at hx2
        subst hx2
        exact hin (by simpa using hx)
      · intro t ht
        rcases List.mem_append.mp ht with h1 | h1
        · exact hdisj t h1
        · simp only [List.mem_singleton] at h1
          subst h1
          exact hnone

/-- C10: the truck-pool invariant (no duplicate available ids, no id both
available and assigned, unique assigned keys) is preserved by
dispatching, by DELIVERY_COMPLETE handling and by TRUCK_AVAILABLE
handling; dispatching moves the head available id into the assigned
table; a TRUCK_AVAILABLE for a truck that is already available and not
assigned leaves the warehouse state entirely unchanged. -/
theorem truck_pool_consistency :
    (∀ (st : Warehouse.WarehouseState) (o : Order),
        Warehouse.PoolInv st →
        Warehouse.PoolInv (Warehouse.dispatch_truck_for_order st o).1) ∧
    (∀ (st : Warehouse.WarehouseState) (truck_id order_id : String),
        Warehouse.PoolInv st →
        Warehouse.PoolInv
          (Warehouse.handle_delivery_complete st truck_id order_id)) ∧
    (∀ (st : Warehouse.WarehouseState) (truck_id : String),
        Warehouse.PoolInv st →
        Warehouse.PoolInv
          (Warehouse.handle_truck_available st truck_id)) ∧
    (∀ (st : Warehouse.WarehouseState) (o : Order) (t : String)
        (rest : List String),
        st.available_trucks = t :: rest →
        (Warehouse.dispatch_truck_for_order st o).1.available_trucks =
            rest ∧
          dictGet
            (Warehouse.dispatch_truck_for_order st o).1.assigned_trucks
            t = some o.order_id) ∧
    (∀ (st : Warehouse.WarehouseState) (truck_id : String),
        truck_id ∈ st.available_trucks →
        dictGet st.assigned_trucks truck_id = none →
        Warehouse.handle_truck_available st truck_id = st) := by
  refine ⟨poolInv_dispatch, poolInv_delivery_complete,
    poolInv_truck_available, ?_, ?_⟩
  · intro st o t rest htr
    refine ⟨?_, ?_⟩
    · simp [Warehouse.dispatch_truck_for_order, htr, Warehouse.send]
    · simp [Warehouse.dispatch_truck_for_order, htr, Warehouse.send,
        dictGet_dictSet_self]
  · intro st truck_id hmem hnone
    have h1 : (dictGet st.assigned_trucks truck_id).isSome = false := by
      simp [hnone]
    have h2 : st.available_trucks.contains truck_id = true := by
      simpa using hmem
    simp [Warehouse.handle_truck_available, h1, h2]
    intro hc
    exact absurd hmem hc

/-- Witness for C10: the Scenario B warehouse satisfies the pool
invariant, and a TRUCK_AVAILABLE for its already-available truck leaves
it unchanged. -/
theorem truck_pool_consistency_witness :
    Warehouse.PoolInv Warehouse.wWarehouse ∧
    Warehouse.handle_truck_available Warehouse.wWarehouse
      "truck_warehouse_1_1" = Warehouse.wWarehouse :=
  ⟨⟨by decide, by decide, by decide⟩,
    truck_pool_consistency.2.2.2.2 Warehouse.wWarehouse
      "truck_warehouse_1_1" (by decide) (by decide)⟩

/-! ## C6: rejection versus waiting for capacity -/

/-- C6: processing a pending retailer order whose quantity exceeds the
on-hand inventory sends ORDER_REJECTED to the requester and bumps the
rejection counter, and (when it is the pending entry) the pass removes
it from the pending table while inventory, both truck pools and the
processing table stay exactly as they were; a fulfillable order with no
available truck instead leaves the whole warehouse state unchanged, the
order still pending — rejection and waiting for capacity are distinct
outcomes. -/
theorem order_rejection_vs_wait :
    ∀ (st : Warehouse.WarehouseState) (oid : String) (o : Order),
      (dictGetD st.inventory o.product_id < o.quantity →
        Warehouse.processOne st (oid, o) =
          ({ st with
             outbox := st.outbox ++
               [{ sender := st.agent_id, recipient := o.requester,
                  message_type := "ORDER_REJECTED",
                  data := [("order_id", Val.s o.order_id),
                           ("reason", Val.s "Insufficient inventory")] }],
             orders_rejected := st.orders_rejected + 1 }, true) ∧
        (st.pending_store_orders = [(oid, o)] →
          Warehouse.process_pending_orders st =
            { st with
              pending_store_orders := [],
              outbox := st.outbox ++
                [{ sender := st.agent_id, recipient := o.requester,
                   message_type := "ORDER_REJECTED",
                   data := [("order_id", Val.s o.order_id),
                            ("reason", Val.s "Insufficient inventory")] }],
              orders_rejected := st.orders_rejected + 1 })) ∧
      (o.quantity ≤ dictGetD st.inventory o.product_id →
        st.available_trucks = [] →
        Warehouse.processOne st (oid, o) = (st, false) ∧
        (st.pending_store_orders = [(oid, o)] →
          Warehouse.process_pending_orders st = st)) := by
  intro st oid o
  constructor
  · intro hlt
    have hcf : Warehouse.can_fulfill_order st o = false := by
      simp only [Warehouse.can_fulfill_order, decide_eq_false_iff_not]
      omega
    have hone : Warehouse.processOne st (oid, o) =
        ({ st with
           outbox := st.outbox ++
             [{ sender := st.agent_id, recipient := o.requester,
                message_type := "ORDER_REJECTED",
                data := [("order_id", Val.s o.order_id),
                         ("reason", Val.s "Insufficient inventory")] }],
           orders_rejected := st.orders_rejected + 1 }, true) := by
      simp [Warehouse.processOne, hcf, Warehouse.reject_order,
        Warehouse.send]
    refine ⟨hone, ?_⟩
    intro hp
    unfold Warehouse.process_pending_orders
    rw [hp]
    simp only [List.foldl_cons, List.foldl_nil, hone]
    simp [hp]
  · intro hle htr
    have hcf : Warehouse.can_fulfill_order st o = true := by
      simp only [Warehouse.can_fulfill_order, decide_eq_true_eq]
      omega
    have hone : Warehouse.processOne st (oid, o) = (st, false) := by
      simp [Warehouse.processOne, hcf,
        Warehouse.dispatch_truck_for_order, htr]
    refine ⟨hone, ?_⟩
    intro hp
    unfold Warehouse.process_pending_orders
    rw [hp]
    simp only [List.foldl_cons, List.foldl_nil, hone]
    simp [hp]
    rw [← hp]

/-- Witness for C6: the Scenario B warehouse (inventory five, requested
thirty, one truck available): one pass rejects the order, clears the
pending table, and leaves inventory and both truck pools untouched. -/
theorem order_rejection_vs_wait_witness :
    Warehouse.process_pending_orders Warehouse.wWarehouse =
      { Warehouse.wWarehouse with
        pending_store_orders := [],
        outbox := [{ sender := "warehouse_1", recipient := "store_1",
                     message_type := "ORDER_REJECTED",
                     data := [("order_id", Val.s "so1"),
                              ("reason",
                               Val.s "Insufficient inventory")] }],
        orders_rejected := 1 } :=
  ((order_rejection_vs_wait Warehouse.wWarehouse "so1"
      { order_id := "so1", product_id := "p1", quantity := 30,
        requester := "store_1", delivery_location := "store_loc" }).1
    (by decide)).2 rfl

end Agora
